import Mathlib

/-!
Verification development for `optimum/intel/openvino/quantization.py`.

The Python module is embedded shallowly: Python dictionaries of keyword
arguments become association lists over a small inductive value type,
stateful methods of `OVQuantizer` become explicit state-passing functions,
exceptions become `Except`, and filesystem side effects are tracked in an
explicit `Effects` record.  External collaborators (torch's seeded
permutation, `nncf.quantize`, the HuggingFace Hub metadata lookup, the model
generation loop) are parameters of the embedding, collected in `Env`.
-/

/-- A Python value as it appears in this module's keyword arguments:
`None`, booleans, integers and strings. -/
inductive PyVal where
  | none
  | bool (b : Bool)
  | int (n : Int)
  | str (s : String)
deriving DecidableEq, Repr

/-- Python truthiness of a `PyVal` (`bool(v)`). -/
def PyVal.truthy : PyVal → Bool
  | .none => false
  | .bool b => b
  | .int n => decide (n ≠ 0)
  | .str s => decide (s ≠ "")

/-- Integer coercion used where the code compares a kwargs value with a
length (`len(data_cache) >= subset_size`). -/
def PyVal.toInt : PyVal → Int
  | .none => 0
  | .bool b => if b then 1 else 0
  | .int n => n
  | .str _ => 0

/-- A `**kwargs` mapping: an association list of named Python values. -/
abbrev Kwargs := List (String × PyVal)

/-- `kwargs.get(k)`: `None` when the key is absent. -/
def kwGet (kw : Kwargs) (k : String) : PyVal :=
  match kw.find? (fun p => p.1 = k) with
  | some p => p.2
  | none => .none

/-- `kwargs.get(k, d)`: the default `d` when the key is absent. -/
def kwGetD (kw : Kwargs) (k : String) (d : PyVal) : PyVal :=
  match kw.find? (fun p => p.1 = k) with
  | some p => p.2
  | none => d

/-- `k in kwargs`. -/
def kwHas (kw : Kwargs) (k : String) : Bool :=
  kw.any (fun p => p.1 = k)

/-- The value `nncf.ModelType.TRANSFORMER` ("transformer architecture"). -/
def nncfTransformer : PyVal := .str "nncf.ModelType.TRANSFORMER"

/-- The explicit keyword arguments `_quantize_ovbasemodel` builds for its
`nncf.quantize` call:
`model_type=nncf.ModelType.TRANSFORMER if not kwargs.get("model_type") else kwargs.get("model_type")`,
`fast_bias_correction=kwargs.get("fast_bias_correction", True)`,
`subset_size=300 if not kwargs.get("subset_size") else kwargs.get("subset_size")`. -/
def basemodelExplicitKwargs (kw : Kwargs) : List (String × PyVal) :=
  [("model_type",
      if (kwGet kw "model_type").truthy then kwGet kw "model_type" else nncfTransformer),
   ("fast_bias_correction", kwGetD kw "fast_bias_correction" (.bool true)),
   ("subset_size",
      if (kwGet kw "subset_size").truthy then kwGet kw "subset_size" else .int 300)]

/-- `subset_size = kwargs.get("subset_size", 300)` computed at the top of
`_quantize_ovcausallm` and reused both for the capture loop bound and for
the `nncf.quantize` call. -/
def causallmSubsetSize (kw : Kwargs) : PyVal :=
  kwGetD kw "subset_size" (.int 300)

/-- The explicit keyword arguments `_quantize_ovcausallm` builds for its
`nncf.quantize` call:
`model_type=nncf.ModelType.TRANSFORMER if not kwargs.get("model_type") else kwargs.get("model_type")`,
`fast_bias_correction=True if not kwargs.get("fast_bias_correction") else kwargs.get("fast_bias_correction")`,
`subset_size=subset_size`. -/
def causallmExplicitKwargs (kw : Kwargs) : List (String × PyVal) :=
  [("model_type",
      if (kwGet kw "model_type").truthy then kwGet kw "model_type" else nncfTransformer),
   ("fast_bias_correction",
      if (kwGet kw "fast_bias_correction").truthy then kwGet kw "fast_bias_correction"
      else .bool true),
   ("subset_size", causallmSubsetSize kw)]

/-- Assembling a Python call of the form `f(k1=v1, ..., kn=vn, **kwargs)`:
if `kwargs` binds any of the explicitly passed keyword names, Python raises
`TypeError: got multiple values for keyword argument`; otherwise the callee
receives the explicit pairs followed by the kwargs pairs. -/
def assembleCall (explicit : List (String × PyVal)) (kw : Kwargs) :
    Except String (List (String × PyVal)) :=
  if kw.any (fun p => explicit.any (fun q => q.1 = p.1)) then
    .error "TypeError: got multiple values for keyword argument"
  else
    .ok (explicit ++ kw)

/-- The keyword arguments that reach `nncf.quantize` on the runtime-graph
(`_quantize_ovbasemodel`) path, or the duplicate-keyword `TypeError`. -/
def basemodelQuantizeCall (kw : Kwargs) : Except String (List (String × PyVal)) :=
  assembleCall (basemodelExplicitKwargs kw) kw

/-- The keyword arguments that reach `nncf.quantize` on the decoder
(`_quantize_ovcausallm`) path, or the duplicate-keyword `TypeError`. -/
def causallmQuantizeCall (kw : Kwargs) : Except String (List (String × PyVal)) :=
  assembleCall (causallmExplicitKwargs kw) kw

lemma kwFind_eq_none_of_no_clash (kw : Kwargs) (k : String)
    (h : ∀ p ∈ kw, p.1 ≠ k) :
    kw.find? (fun p => p.1 = k) = Option.none := by
  apply List.find?_eq_none.mpr
  intro p hp
  simpa using h p hp

lemma kwGet_eq_none_of_no_clash (kw : Kwargs) (k : String)
    (h : ∀ p ∈ kw, p.1 ≠ k) :
    kwGet kw k = PyVal.none := by
  unfold kwGet
  rw [kwFind_eq_none_of_no_clash kw k h]

lemma kwGetD_eq_default_of_no_clash (kw : Kwargs) (k : String) (d : PyVal)
    (h : ∀ p ∈ kw, p.1 ≠ k) :
    kwGetD kw k d = d := by
  unfold kwGetD
  rw [kwFind_eq_none_of_no_clash kw k h]

/-- C2: for every kwargs assignment, the effective keyword arguments that
reach `nncf.quantize` (model_type, fast_bias_correction, subset_size and all
extra kwargs) are identical on the decoder path and on the runtime-graph
path; in particular, when either call raises the duplicate-keyword
`TypeError`, so does the other. -/
theorem nncf_call_paths_agree (kw : Kwargs) :
    causallmQuantizeCall kw = basemodelQuantizeCall kw := by
  unfold causallmQuantizeCall basemodelQuantizeCall assembleCall
  have hfun : (fun p : String × PyVal => (causallmExplicitKwargs kw).any fun q => q.1 = p.1)
      = (fun p : String × PyVal => (basemodelExplicitKwargs kw).any fun q => q.1 = p.1) := by
    funext p
    simp [causallmExplicitKwargs, basemodelExplicitKwargs]
  rw [show (kw.any fun p => (causallmExplicitKwargs kw).any fun q => q.1 = p.1)
      = (kw.any fun p => (basemodelExplicitKwargs kw).any fun q => q.1 = p.1) from
    congrArg (List.any kw) hfun]
  cases hany : (kw.any fun p => (basemodelExplicitKwargs kw).any fun q => q.1 = p.1) with
  | true => simp [hany]
  | false =>
    simp only [hany, Bool.false_eq_true, if_false, Except.ok.injEq, List.append_cancel_right_eq]
    have hkey : ∀ k : String, (basemodelExplicitKwargs kw).any (fun q => q.1 = k) = true →
        ∀ p ∈ kw, p.1 ≠ k := by
      intro k hk p hp h
      have hnot := List.any_eq_false.mp hany p hp
      apply hnot
      rw [h]
      exact hk
    have hmt : ∀ p ∈ kw, p.1 ≠ "model_type" := by
      apply hkey
      simp [basemodelExplicitKwargs]
    have hfb : ∀ p ∈ kw, p.1 ≠ "fast_bias_correction" := by
      apply hkey
      simp [basemodelExplicitKwargs]
    have hss : ∀ p ∈ kw, p.1 ≠ "subset_size" := by
      apply hkey
      simp [basemodelExplicitKwargs]
    simp [causallmExplicitKwargs, basemodelExplicitKwargs, causallmSubsetSize,
      kwGet_eq_none_of_no_clash kw _ hmt,
      kwGet_eq_none_of_no_clash kw _ hfb,
      kwGet_eq_none_of_no_clash kw _ hss,
      kwGetD_eq_default_of_no_clash kw _ _ hfb,
      kwGetD_eq_default_of_no_clash kw _ _ hss,
      PyVal.truthy]

/-- C3: on the runtime-graph path, with kwargs omitting all three keys the
defaults (transformer model type, fast bias correction on, subset size 300)
reach `nncf.quantize`; but supplying any of the three keys through kwargs
raises `TypeError: got multiple values for keyword argument`, because the
key is passed both explicitly and via the trailing `**kwargs` — the
documented override never reaches the quantization routine. -/
theorem nncf_call_defaults_and_override_type_error :
    basemodelQuantizeCall [] =
      .ok [("model_type", nncfTransformer),
           ("fast_bias_correction", .bool true),
           ("subset_size", .int 300)]
    ∧ basemodelQuantizeCall [("subset_size", .int 10)] =
      .error "TypeError: got multiple values for keyword argument"
    ∧ basemodelQuantizeCall [("model_type", .str "ssd")] =
      .error "TypeError: got multiple values for keyword argument"
    ∧ basemodelQuantizeCall [("fast_bias_correction", .bool false)] =
      .error "TypeError: got multiple values for keyword argument" := by
  refine ⟨rfl, rfl, rfl, rfl⟩

/-- A dataset row: a mapping from column name to a (numeric) cell value. -/
abbrev Row := List (String × Nat)

/-- The capture loop of `_quantize_ovcausallm`:
`for _, data in enumerate(calibration_dataloader): self.model.generate(**data, max_new_tokens=100); if len(data_cache) >= subset_size: break`.
`gen` abstracts one `generate` call: the captured inputs it appends to
`data_cache` through the wrapped inference request.  Returns the final
cache and the batches left unconsumed in the loader. -/
def decoderLoop (gen : List Row → List PyVal) (subset : Int) :
    List (List Row) → List PyVal → List PyVal × List (List Row)
  | [], cache => (cache, [])
  | b :: bs, cache =>
    let cache2 := cache ++ gen b
    if subset ≤ (cache2.length : Int) then (cache2, bs)
    else decoderLoop gen subset bs cache2

/-- C4: whenever the decoder path's generation loop stops, either the
capture cache holds at least `subset_size` entries or the calibration
loader has been fully consumed. -/
theorem decoder_loop_full_or_exhausted (gen : List Row → List PyVal) (subset : Int)
    (batches : List (List Row)) :
    subset ≤ (((decoderLoop gen subset batches []).1.length : Int))
      ∨ (decoderLoop gen subset batches []).2 = [] := by
  suffices h : ∀ (bs : List (List Row)) (cache : List PyVal),
      subset ≤ (((decoderLoop gen subset bs cache).1.length : Int))
        ∨ (decoderLoop gen subset bs cache).2 = [] from h batches []
  intro bs
  induction bs with
  | nil =>
    intro cache
    right
    rfl
  | cons b bs ih =>
    intro cache
    unfold decoderLoop
    by_cases h : subset ≤ (((cache ++ gen b).length : Int))
    · rw [if_pos h]
      left
      exact h
    · rw [if_neg h]
      exact ih (cache ++ gen b)

/-- The wrapped OpenVINO inference request object: its attribute namespace,
as observed through `getattr`. -/
structure RequestObj where
  attrs : String → PyVal

/-- Result of an attribute access on the `InferRequestWrapper` shim: the
`request` field from the instance dictionary, a method defined on the
class, an attribute inherited from `object` (or implicit on every
user-defined class), or a value forwarded to the wrapped request. -/
inductive ShimAttr where
  | ownRequest
  | ownMethod (name : String)
  | ownObject (name : String)
  | forwarded (v : PyVal)
deriving DecidableEq, Repr

/-- The names bound on the shim instance itself: `__init__` stores only
`request` in the instance dictionary. -/
def shimInstanceDict : List String := ["request"]

/-- The names defined in the `InferRequestWrapper` class body: `__init__`,
the call operator, `infer`, `start_async`, `wait`, `get_tensor` and
`__getattr__` itself. -/
def shimClassMethods : List String :=
  ["__init__", "__call__", "infer", "start_async", "wait", "get_tensor", "__getattr__"]

/-- The attribute names every instance of a plain user-defined class
resolves through `object` or the class machinery without ever reaching
`__getattr__` (CPython's standard set, plus the implicit class attributes
`__dict__`, `__module__` and `__weakref__`). -/
def objectAttrs : List String :=
  ["__class__", "__delattr__", "__dict__", "__dir__", "__doc__", "__eq__",
   "__format__", "__ge__", "__getattribute__", "__gt__", "__hash__",
   "__init__", "__init_subclass__", "__le__", "__lt__", "__module__",
   "__ne__", "__new__", "__reduce__", "__reduce_ex__", "__repr__",
   "__setattr__", "__sizeof__", "__str__", "__subclasshook__", "__weakref__"]

/-- The attribute names the claim excludes from the transparency property:
`request`, the four overridden methods and the call operator. -/
def claimExcludedNames : List String :=
  ["request", "infer", "start_async", "wait", "get_tensor", "__call__"]

/-- Python attribute lookup on an `InferRequestWrapper` instance: normal
lookup consults the instance dictionary, the names defined on the class,
then what the class inherits from `object`; only when all of these fail is
`__getattr__` invoked, whose body is
`if attr in self.__dict__: return getattr(self, attr)` (dead: normal lookup
already failed) `return getattr(self.request, attr)`. -/
def shimGetattr (wrapped : RequestObj) (attr : String) : ShimAttr :=
  if attr ∈ shimInstanceDict then .ownRequest
  else if attr ∈ shimClassMethods then .ownMethod attr
  else if attr ∈ objectAttrs then .ownObject attr
  else if attr ∈ shimInstanceDict then .ownRequest
  else .forwarded (wrapped.attrs attr)

/-- C5 counterexample: `__init__` and `__class__` lie outside the claim's
exclusion set {request, infer, start_async, wait, get_tensor, call
operator}, yet accessing them on the shim resolves the shim's own class
member (`__init__` is defined in the `InferRequestWrapper` body) or the
`object`-inherited attribute (`__class__`), never the wrapped request's
attribute — normal lookup succeeds before `__getattr__` can forward. -/
theorem shim_getattr_dunder_not_forwarded :
    "__init__" ∉ claimExcludedNames
    ∧ "__class__" ∉ claimExcludedNames
    ∧ shimGetattr ⟨fun _ => .int 7⟩ "__init__" = .ownMethod "__init__"
    ∧ shimGetattr ⟨fun _ => .int 7⟩ "__class__" = .ownObject "__class__" :=
  ⟨by decide, by decide, rfl, rfl⟩

/-- C5 (amended): every attribute access on the interception shim whose
name is not in the instance dictionary (`request`), not defined on the
`InferRequestWrapper` class (the call operator, the four overridden
methods, `__init__`, `__getattr__`) and not an `object`-inherited or
implicit class attribute returns exactly the wrapped request object's
value for that attribute. -/
theorem shim_getattr_transparent (wrapped : RequestObj) (attr : String)
    (h1 : attr ∉ shimInstanceDict) (h2 : attr ∉ shimClassMethods)
    (h3 : attr ∉ objectAttrs) :
    shimGetattr wrapped attr = .forwarded (wrapped.attrs attr) := by
  unfold shimGetattr
  rw [if_neg h1, if_neg h2, if_neg h3, if_neg h1]

/-- Witness for C5 at the concrete attribute name `results` and a wrapped
request mapping every attribute to the integer 7. -/
theorem shim_getattr_transparent_witness :
    "results" ∉ shimInstanceDict ∧ "results" ∉ shimClassMethods ∧
      "results" ∉ objectAttrs ∧
      shimGetattr ⟨fun _ => .int 7⟩ "results" = .forwarded (.int 7) :=
  ⟨by decide, by decide, by decide,
    shim_getattr_transparent ⟨fun _ => .int 7⟩ "results" (by decide) (by decide)
      (by decide)⟩

/-- A delegation to the wrapped request recorded by a shim entry point:
which method of the wrapped object was invoked and with which positional
arguments. -/
structure Delegation where
  method : String
  args : List PyVal
deriving DecidableEq, Repr

/-- The shim's call operator:
`def __call__(self, *args, **kwargs): data_cache.append(*args); return self.request(*args, *kwargs)`.
`list.append` accepts exactly one argument, so any other positional arity
raises a `TypeError` before anything is captured or delegated; the
single-star `*kwargs` unpacking forwards the keyword names (not the values)
as additional positional arguments.  Returns the data cache after the call
together with the delegation performed, if any. -/
def shimCall (cache : List PyVal) (args : List PyVal) (kw : Kwargs) :
    List PyVal × Except String Delegation :=
  match args with
  | [a] => (cache ++ [a], .ok ⟨"__call__", [a] ++ kw.map (fun p => PyVal.str p.1)⟩)
  | _ => (cache, .error "TypeError: append() takes exactly one argument")

/-- The shim's `infer`:
`def infer(self, inputs=None, shared_memory=False): data_cache.append(inputs); return self.request.infer(inputs, shared_memory)`. -/
def shimInfer (cache : List PyVal) (inputs : PyVal) (shared_memory : PyVal) :
    List PyVal × Delegation :=
  (cache ++ [inputs], ⟨"infer", [inputs, shared_memory]⟩)

/-- The shim's `start_async`:
`def start_async(self, inputs=None, userdata=None, shared_memory=False): data_cache.append(inputs); self.request.infer(inputs, shared_memory)` —
it captures, then delegates synchronously through the wrapped request's
`infer` (ignoring `userdata`) and returns nothing. -/
def shimStartAsync (cache : List PyVal) (inputs : PyVal) (userdata : PyVal)
    (shared_memory : PyVal) : List PyVal × Delegation :=
  (cache ++ [inputs], ⟨"infer", [inputs, shared_memory]⟩)

/-- C6 counterexample: invoking the shim's call operator with two
positional arguments — an invocation that does have a first positional
input argument — raises a `TypeError` from `data_cache.append(*args)`,
appends nothing to the capture list, and never delegates to the wrapped
request, contradicting the claim that every such invocation appends the
first argument and delegates. -/
theorem shim_call_two_args_no_capture :
    shimCall [] [.int 1, .int 2] [] =
      ([], .error "TypeError: append() takes exactly one argument") := by
  rfl

/-- C6 (amended): the call operator invoked with exactly one positional
argument, and `infer` and `start_async` on any inputs, append exactly the
first input argument to the capture list and then delegate to the wrapped
request object (`start_async` synchronously via `infer`; the call operator
forwards keyword names positionally due to single-star unpacking); each
such invocation grows the capture list by exactly one entry. -/
theorem shim_entry_points_capture_then_delegate :
    (∀ (cache : List PyVal) (a : PyVal) (kw : Kwargs),
      shimCall cache [a] kw =
        (cache ++ [a], .ok ⟨"__call__", [a] ++ kw.map (fun p => PyVal.str p.1)⟩))
    ∧ (∀ (cache : List PyVal) (inputs shared_memory : PyVal),
      shimInfer cache inputs shared_memory =
        (cache ++ [inputs], ⟨"infer", [inputs, shared_memory]⟩))
    ∧ (∀ (cache : List PyVal) (inputs userdata shared_memory : PyVal),
      shimStartAsync cache inputs userdata shared_memory =
        (cache ++ [inputs], ⟨"infer", [inputs, shared_memory]⟩)) :=
  ⟨fun _ _ _ => rfl, fun _ _ _ => rfl, fun _ _ _ _ => rfl⟩

/-- The runtime representation of the model held by the quantizer, as
discriminated by the `isinstance` chain in `OVQuantizer.quantize`:
`OVBaseDecoderModel` (with its `use_cache` flag), other `OVBaseModel`
subclasses, `torch.nn.Module`, or anything else. -/
inductive ModelRepr where
  | ovDecoder (use_cache : Bool)
  | ovBase
  | torchModule
  | other
deriving DecidableEq, Repr

/-- A HuggingFace dataset: its column names and its rows. -/
structure HFDataset where
  cols : List String
  rows : List Row
deriving DecidableEq, Repr

/-- The mutable state of an `OVQuantizer`: the held model's runtime
representation and graph handle (`self.model` / `self.model.model`), the
task label, the shuffling seed, the `input_names` column list, and the
forward-signature column list computed at construction. -/
structure Quantizer where
  modelRepr : ModelRepr
  modelGraph : Nat
  task : Option String
  seed : Nat
  input_names : Option (List String)
  signature_columns : List String
deriving DecidableEq, Repr

/-- Filesystem side effects performed by a `quantize` call: directories
created and files written under `save_directory`. -/
structure Effects where
  dirs : List String
  files : List String
deriving DecidableEq, Repr

/-- No side effects. -/
def Effects.empty : Effects := ⟨[], []⟩

/-- `dataset.remove_columns(ignored)`. -/
def HFDataset.remove_columns (ds : HFDataset) (ignored : List String) : HFDataset :=
  { cols := ds.cols.filter (fun c => decide (c ∉ ignored)),
    rows := ds.rows.map (fun r => r.filter (fun p => decide (p.1 ∉ ignored))) }

/-- `OVQuantizer._remove_unused_columns`: drop every dataset column not in
`self._signature_columns`. -/
def _remove_unused_columns (sig : List String) (ds : HFDataset) : HFDataset :=
  ds.remove_columns (ds.cols.filter (fun c => decide (c ∉ sig)))

/-- Split a list into consecutive batches of size `bs` (`drop_last=False`):
the final batch may be shorter.  The fuel argument is the list length. -/
def chunksGo (bs : Nat) : Nat → List α → List (List α)
  | 0, _ => []
  | _, [] => []
  | fuel + 1, l => l.take bs :: chunksGo bs fuel (l.drop bs)

/-- The batches a `DataLoader` with `drop_last=False` forms from a sampled
sequence. -/
def chunks (bs : Nat) (l : List α) : List (List α) :=
  if bs = 0 then [] else chunksGo bs l.length l

/-- Read rows in the order given by a sampled index sequence. -/
def applyOrder (rows : List Row) (order : List Nat) : List Row :=
  order.filterMap (fun i => rows.get? i)

/-- `OVQuantizer._get_calibration_dataloader`: optionally filters unused
columns, records `self.input_names = calibration_dataset.column_names`,
seeds a fresh `torch.Generator` with `self.seed`, samples the dataset with
a `RandomSampler` over that generator, and batches with `drop_last=False`.
`perm` abstracts torch's seeded index permutation (a deterministic function
of the generator seed and the dataset length).  Returns the updated
quantizer and the loader's batch sequence. -/
def _get_calibration_dataloader (perm : Nat → Nat → List Nat) (q : Quantizer)
    (ds : HFDataset) (batch_size : Nat) (remove_unused_columns : Bool) :
    Quantizer × List (List Row) :=
  let ds2 := if remove_unused_columns then _remove_unused_columns q.signature_columns ds else ds
  let q2 := { q with input_names := some ds2.cols }
  let order := perm q2.seed ds2.rows.length
  (q2, chunks batch_size (applyOrder ds2.rows order))

/-- The sample stream handed to `nncf.quantize`: the calibration loader on
the runtime-graph path, the captured tensor cache on the decoder path. -/
inductive NncfSamples where
  | fromLoader (batches : List (List Row))
  | fromCache (cache : List PyVal)

/-- External collaborators of the module, held abstract: torch's seeded
permutation, the `nncf.quantize` routine, the captures one `generate` call
pushes through the wrapped request, the Hub metadata lookup
(`HfApi().model_info(...).pipeline_tag`), and the `_TASK_ALIASES` table.
The last three numeric fields are modelled from the spec: the export
config's default opset, `MAX_ONNX_OPSET`, `MIN_ONNX_QDQ_OPSET` and the
parameter-count cutoff of `use_external_data_format` live in modules not
under analysis, so they appear here as abstract constants. -/
structure Env where
  perm : Nat → Nat → List Nat
  nncfQuantize : Nat → NncfSamples → List (String × PyVal) → Nat
  generateCaptures : List Row → List PyVal
  hubTask : Option String
  taskAliases : String → String
  defaultOnnxOpset : Nat
  maxOnnxOpset : Nat
  minOnnxQdqOpset : Nat
  externalDataCutoff : Nat
  numParameters : Nat

/-- The outcome of one `quantize` call: the quantizer state after the call,
the filesystem effects performed, the raised exception if any, and — on
the generic torch path — the export opset used and whether externalized
weight storage was chosen. -/
structure PathResult where
  q : Quantizer
  effects : Effects
  outcome : Except String Unit
  exportOpsetUsed : Option Nat
  savedExternal : Option Bool
deriving Repr

/-- `OVQuantizer._quantize_ovbasemodel`: creates `save_directory`, builds
the calibration loader, invokes `nncf.quantize` on the held graph with the
assembled keyword arguments (propagating the duplicate-keyword `TypeError`
when kwargs bind an explicitly passed name), replaces the held graph with
the result and saves via the model's `save_pretrained`. -/
def _quantize_ovbasemodel (env : Env) (q : Quantizer) (ds : HFDataset)
    (save_directory : String) (batch_size : Nat) (remove_unused_columns : Bool)
    (kw : Kwargs) : PathResult :=
  let eff : Effects := ⟨[save_directory], []⟩
  let r := _get_calibration_dataloader env.perm q ds batch_size remove_unused_columns
  match basemodelQuantizeCall kw with
  | .error e => ⟨r.1, eff, .error e, Option.none, Option.none⟩
  | .ok finalKw =>
    let q3 := { r.1 with modelGraph := env.nncfQuantize r.1.modelGraph (.fromLoader r.2) finalKw }
    ⟨q3, ⟨eff.dirs, [save_directory ++ "/save_pretrained"]⟩, .ok (), Option.none, Option.none⟩

/-- `OVQuantizer._quantize_ovcausallm`: creates `save_directory`, builds
the calibration loader, compiles the model, wraps its request in the
interception shim, drives generation until the capture cache reaches
`subset_size` or the loader is exhausted, restores the request, then
invokes `nncf.quantize` on the held graph sourcing samples from the cache,
replaces the held graph and saves via `save_pretrained`. -/
def _quantize_ovcausallm (env : Env) (q : Quantizer) (ds : HFDataset)
    (save_directory : String) (batch_size : Nat) (remove_unused_columns : Bool)
    (kw : Kwargs) : PathResult :=
  let eff : Effects := ⟨[save_directory], []⟩
  let r := _get_calibration_dataloader env.perm q ds batch_size remove_unused_columns
  let subset := (causallmSubsetSize kw).toInt
  let cacheRem := decoderLoop env.generateCaptures subset r.2 []
  match causallmQuantizeCall kw with
  | .error e => ⟨r.1, eff, .error e, Option.none, Option.none⟩
  | .ok finalKw =>
    let q3 := { r.1 with
      modelGraph := env.nncfQuantize r.1.modelGraph (.fromCache cacheRem.1) finalKw }
    ⟨q3, ⟨eff.dirs, [save_directory ++ "/save_pretrained"]⟩, .ok (), Option.none, Option.none⟩

/-- `OVQuantizer._set_task`: when `self.task` is `None`, resolve it through
the Hub metadata lookup, failing when that yields nothing; then apply the
`_TASK_ALIASES` mapping, and fail when the resolved task is
`text2text-generation`. -/
def _set_task (env : Env) (q : Quantizer) : Quantizer × Except String Unit :=
  let resolved : Option String :=
    match q.task with
    | Option.none => env.hubTask
    | some t => some t
  match resolved with
  | Option.none =>
    ({ q with task := Option.none },
     .error "ValueError: the task could not be extracted")
  | some t =>
    let t2 := env.taskAliases t
    if t2 = "text2text-generation" then
      ({ q with task := some t2 },
       .error "ValueError: Seq2Seq models are not supported")
    else
      ({ q with task := some t2 }, .ok ())

/-- Modelled from the spec: `use_external_data_format` from `.utils` (not
part of the analyzed source file) requests externalized weight storage
exactly when the model's parameter count exceeds a size cutoff. -/
def use_external_data_format (cutoff num_parameters : Nat) : Bool :=
  decide (cutoff < num_parameters)

/-- The opset computation of `_quantize_torchmodel`:
`opset = min(onnx_config.DEFAULT_ONNX_OPSET, MAX_ONNX_OPSET)` followed by
`opset = opset if not quantization_config.save_onnx_model else max(opset, MIN_ONNX_QDQ_OPSET)`. -/
def torchExportOpset (default_onnx_opset max_onnx_opset min_onnx_qdq_opset : Nat)
    (save_onnx_model : Bool) : Nat :=
  let opset := min default_onnx_opset max_onnx_opset
  if save_onnx_model then max opset min_onnx_qdq_opset else opset

/-- `OVQuantizer._quantize_torchmodel`: creates `save_directory`, builds
the calibration loader and takes its first batch (raising `StopIteration`
on an empty loader), compresses through the compression framework, resolves
the task via `_set_task`, saves the model config, exports to ONNX —
externalized weights when the parameter count exceeds the cutoff or the
quantization config requests ONNX saving, with the opset given by
`torchExportOpset` — then reads, transforms and serializes the graph pair
and persists the quantization config.  The `OVConfig` argument is modelled
by its `save_onnx_model` flag (its module is not under analysis; the flag
defaults to off).  Output file names are recorded coarsely. -/
def _quantize_torchmodel (env : Env) (q : Quantizer) (ds : HFDataset)
    (save_directory : String) (save_onnx_model : Bool) (batch_size : Nat)
    (remove_unused_columns : Bool) : PathResult :=
  match (_get_calibration_dataloader env.perm q ds batch_size remove_unused_columns).2 with
  | [] =>
    ⟨(_get_calibration_dataloader env.perm q ds batch_size remove_unused_columns).1,
      ⟨[save_directory], []⟩, .error "StopIteration", Option.none, Option.none⟩
  | _ :: _ =>
    match _set_task env
        (_get_calibration_dataloader env.perm q ds batch_size remove_unused_columns).1 with
    | (q3, .error e) => ⟨q3, ⟨[save_directory], []⟩, .error e, Option.none, Option.none⟩
    | (q3, .ok _) =>
      let sExternal :=
        use_external_data_format env.externalDataCutoff env.numParameters || save_onnx_model
      let opset :=
        torchExportOpset env.defaultOnnxOpset env.maxOnnxOpset env.minOnnxQdqOpset save_onnx_model
      let files :=
        [save_directory ++ "/config.json"]
          ++ (if sExternal then [save_directory ++ "/model.onnx"] else [])
          ++ [save_directory ++ "/openvino_model.xml", save_directory ++ "/openvino_model.bin",
              save_directory ++ "/ov_config.json"]
      ⟨q3, ⟨[save_directory], files⟩, .ok (), some opset, some sExternal⟩

/-- `OVQuantizer.quantize`: dispatch on the held model's runtime type —
cached decoder, OpenVINO base model (which a cache-less decoder also
matches, by subclassing), torch module — and otherwise raise
`TypeError: Unsupported model type` before any side effect.  The
`quantization_config` argument is modelled by its optional
`save_onnx_model` flag and, as in the source, is forwarded only to the
torch path. -/
def quantize (env : Env) (q : Quantizer) (ds : HFDataset) (save_directory : String)
    (quantization_config : Option Bool) (batch_size : Nat)
    (remove_unused_columns : Bool) (kw : Kwargs) : PathResult :=
  match q.modelRepr with
  | .ovDecoder true =>
    _quantize_ovcausallm env q ds save_directory batch_size remove_unused_columns kw
  | .ovDecoder false =>
    _quantize_ovbasemodel env q ds save_directory batch_size remove_unused_columns kw
  | .ovBase =>
    _quantize_ovbasemodel env q ds save_directory batch_size remove_unused_columns kw
  | .torchModule =>
    _quantize_torchmodel env q ds save_directory
      (match quantization_config with | some b => b | Option.none => false)
      batch_size remove_unused_columns
  | .other =>
    ⟨q, Effects.empty, .error "TypeError: Unsupported model type", Option.none, Option.none⟩

/-- C1: when the held model matches none of the supported runtime
representations, `quantize` raises `TypeError` before any directory is
created or any file written, and leaves the quantizer state untouched. -/
theorem quantize_unsupported_no_side_effects (env : Env) (q : Quantizer) (ds : HFDataset)
    (save_directory : String) (quantization_config : Option Bool) (batch_size : Nat)
    (remove_unused_columns : Bool) (kw : Kwargs) (h : q.modelRepr = .other) :
    quantize env q ds save_directory quantization_config batch_size remove_unused_columns kw =
      ⟨q, Effects.empty, .error "TypeError: Unsupported model type",
        Option.none, Option.none⟩ := by
  unfold quantize
  rw [h]

/-- A concrete environment standing in for the external collaborators:
identity-order permutation, a quantization routine bumping the graph
handle, one captured input per generation call, a Hub lookup returning
text-classification, identity aliases, default opset 11, opset cap 16,
minimum QDQ opset 13, externalization cutoff 1000 parameters and a model
with 2000 parameters. -/
def witnessEnv : Env :=
  ⟨fun _ n => List.range n, fun g _ _ => g + 1, fun _ => [.int 0],
   some "text-classification", fun t => t, 11, 16, 13, 1000, 2000⟩

/-- A quantizer holding an unrecognized model representation. -/
def unsupportedQ : Quantizer :=
  ⟨.other, 0, Option.none, 42, Option.none, ["input_ids"]⟩

/-- A three-example calibration dataset with a single column. -/
def witnessDs : HFDataset :=
  ⟨["input_ids"], [[("input_ids", 1)], [("input_ids", 2)], [("input_ids", 3)]]⟩

/-- Witness for C1 at a concrete unsupported quantizer. -/
theorem quantize_unsupported_no_side_effects_witness :
    unsupportedQ.modelRepr = ModelRepr.other ∧
      quantize witnessEnv unsupportedQ witnessDs "out" Option.none 1 true [] =
        ⟨unsupportedQ, Effects.empty, .error "TypeError: Unsupported model type",
          Option.none, Option.none⟩ :=
  ⟨rfl, quantize_unsupported_no_side_effects witnessEnv unsupportedQ witnessDs "out"
    Option.none 1 true [] rfl⟩

/-- A quantizer holding an OpenVINO base model, with `input_names` still
unset. -/
def ovbaseQ : Quantizer :=
  ⟨.ovBase, 0, some "text-classification", 42, Option.none, ["input_ids"]⟩

/-- C7 counterexample: a `quantize` call on the runtime-graph path rewrites
the quantizer's `input_names` field (the accepted-input-names list) from
`None` to the filtered dataset's column names — a quantizer-owned field
other than the model handle is mutated. -/
theorem quantize_mutates_input_names :
    ovbaseQ.input_names = Option.none ∧
      (quantize witnessEnv ovbaseQ witnessDs "out" Option.none 1 true []).q.input_names
        = some ["input_ids"] :=
  ⟨rfl, rfl⟩

lemma set_task_fields (env : Env) (q : Quantizer) :
    ((_set_task env q).1).seed = q.seed
    ∧ ((_set_task env q).1).signature_columns = q.signature_columns
    ∧ ((_set_task env q).1).modelRepr = q.modelRepr
    ∧ ((_set_task env q).1).input_names = q.input_names := by
  unfold _set_task
  cases htask : q.task with
  | none =>
    cases hh : env.hubTask with
    | none => exact ⟨rfl, rfl, rfl, rfl⟩
    | some t =>
      by_cases halias : env.taskAliases t = "text2text-generation" <;>
        simp [halias]
  | some t =>
    by_cases halias : env.taskAliases t = "text2text-generation" <;>
      simp [halias]

lemma ovbasemodel_fields (env : Env) (q : Quantizer) (ds : HFDataset) (sd : String)
    (bs : Nat) (ruc : Bool) (kw : Kwargs) :
    (_quantize_ovbasemodel env q ds sd bs ruc kw).q.seed = q.seed
    ∧ (_quantize_ovbasemodel env q ds sd bs ruc kw).q.signature_columns = q.signature_columns
    ∧ (_quantize_ovbasemodel env q ds sd bs ruc kw).q.modelRepr = q.modelRepr
    ∧ (_quantize_ovbasemodel env q ds sd bs ruc kw).q.task = q.task := by
  unfold _quantize_ovbasemodel
  cases hc : basemodelQuantizeCall kw <;>
    simp [hc, _get_calibration_dataloader]

lemma ovcausallm_fields (env : Env) (q : Quantizer) (ds : HFDataset) (sd : String)
    (bs : Nat) (ruc : Bool) (kw : Kwargs) :
    (_quantize_ovcausallm env q ds sd bs ruc kw).q.seed = q.seed
    ∧ (_quantize_ovcausallm env q ds sd bs ruc kw).q.signature_columns = q.signature_columns
    ∧ (_quantize_ovcausallm env q ds sd bs ruc kw).q.modelRepr = q.modelRepr
    ∧ (_quantize_ovcausallm env q ds sd bs ruc kw).q.task = q.task := by
  unfold _quantize_ovcausallm
  cases hc : causallmQuantizeCall kw <;>
    simp [hc, _get_calibration_dataloader]

lemma torchmodel_fields (env : Env) (q : Quantizer) (ds : HFDataset) (sd : String)
    (so : Bool) (bs : Nat) (ruc : Bool) :
    (_quantize_torchmodel env q ds sd so bs ruc).q.seed = q.seed
    ∧ (_quantize_torchmodel env q ds sd so bs ruc).q.signature_columns = q.signature_columns
    ∧ (_quantize_torchmodel env q ds sd so bs ruc).q.modelRepr = q.modelRepr := by
  unfold _quantize_torchmodel
  cases hl : (_get_calibration_dataloader env.perm q ds bs ruc).2 with
  | nil =>
    simp [hl, _get_calibration_dataloader]
  | cons b bs2 =>
    simp only [hl]
    have hf := set_task_fields env ((_get_calibration_dataloader env.perm q ds bs ruc).1)
    cases hs : _set_task env ((_get_calibration_dataloader env.perm q ds bs ruc).1) with
    | mk q3 outcome =>
      rw [hs] at hf
      cases outcome <;>
        exact ⟨hf.1, hf.2.1, hf.2.2.1⟩

/-- C7 (amended): a `quantize` call leaves the quantizer's seed, signature
column list and model representation unchanged on every path, and its task
label unchanged on the two OpenVINO paths; besides the held model handle,
the mutated quantizer-owned state is the `input_names` field (rewritten by
the calibration loader builder on all three paths) and, on the generic
torch path, the task label resolved by `_set_task`. -/
theorem quantize_frame_effects (env : Env) (q : Quantizer) (ds : HFDataset)
    (save_directory : String) (quantization_config : Option Bool) (batch_size : Nat)
    (remove_unused_columns : Bool) (kw : Kwargs) :
    (quantize env q ds save_directory quantization_config batch_size
        remove_unused_columns kw).q.seed = q.seed
    ∧ (quantize env q ds save_directory quantization_config batch_size
        remove_unused_columns kw).q.signature_columns = q.signature_columns
    ∧ (quantize env q ds save_directory quantization_config batch_size
        remove_unused_columns kw).q.modelRepr = q.modelRepr
    ∧ (q.modelRepr = ModelRepr.torchModule
        ∨ (quantize env q ds save_directory quantization_config batch_size
            remove_unused_columns kw).q.task = q.task) := by
  unfold quantize
  cases hrepr : q.modelRepr with
  | ovDecoder b =>
    cases b with
    | true =>
      have h := ovcausallm_fields env q ds save_directory batch_size remove_unused_columns kw
      exact ⟨h.1, h.2.1, h.2.2.1.trans hrepr, Or.inr h.2.2.2⟩
    | false =>
      have h := ovbasemodel_fields env q ds save_directory batch_size remove_unused_columns kw
      exact ⟨h.1, h.2.1, h.2.2.1.trans hrepr, Or.inr h.2.2.2⟩
  | ovBase =>
    have h := ovbasemodel_fields env q ds save_directory batch_size remove_unused_columns kw
    exact ⟨h.1, h.2.1, h.2.2.1.trans hrepr, Or.inr h.2.2.2⟩
  | torchModule =>
    have h := torchmodel_fields env q ds save_directory
      (match quantization_config with | some b => b | Option.none => false)
      batch_size remove_unused_columns
    exact ⟨h.1, h.2.1, h.2.2.trans hrepr, Or.inl rfl⟩
  | other =>
    exact ⟨rfl, rfl, hrepr, Or.inr rfl⟩

/-- A quantizer holding a torch module with a resolved task. -/
def torchQ : Quantizer :=
  ⟨.torchModule, 0, some "text-classification", 42, Option.none, ["input_ids"]⟩

/-- C8 counterexample: under `witnessEnv` the model's 2000 parameters
exceed the 1000-parameter cutoff, so externalized-weight export is chosen
(`savedExternal = true`), yet with ONNX saving not requested by the config
the export opset stays at `min(11, 16) = 11`, strictly below the minimum
QDQ opset 13 — externalized-weight export alone does not raise the opset. -/
theorem torch_opset_not_raised_for_large_model :
    (quantize witnessEnv torchQ witnessDs "out" (some false) 1 true []).savedExternal
        = some true
    ∧ (quantize witnessEnv torchQ witnessDs "out" (some false) 1 true []).exportOpsetUsed
        = some 11
    ∧ witnessEnv.minOnnxQdqOpset = 13 :=
  ⟨rfl, rfl, rfl⟩

lemma torch_opset_cases (env : Env) (q : Quantizer) (ds : HFDataset) (sd : String)
    (so : Bool) (bs : Nat) (ruc : Bool) :
    (_quantize_torchmodel env q ds sd so bs ruc).exportOpsetUsed = Option.none
    ∨ (_quantize_torchmodel env q ds sd so bs ruc).exportOpsetUsed
        = some (torchExportOpset env.defaultOnnxOpset env.maxOnnxOpset env.minOnnxQdqOpset so) := by
  unfold _quantize_torchmodel
  split
  · left
    rfl
  · split
    · left
      rfl
    · right
      rfl

/-- C8 (amended): on the generic torch path the export opset equals
`min(default opset, MAX_ONNX_OPSET)`, raised to at least
`MIN_ONNX_QDQ_OPSET` exactly when the quantization config explicitly
requests ONNX saving; externalized-weight export triggered only by the
parameter-count cutoff does not raise it. -/
theorem torch_opset_formula (env : Env) (q : Quantizer) (ds : HFDataset) (sd : String)
    (so : Bool) (bs : Nat) (ruc : Bool) (o : Nat)
    (h : (_quantize_torchmodel env q ds sd so bs ruc).exportOpsetUsed = some o) :
    o = torchExportOpset env.defaultOnnxOpset env.maxOnnxOpset env.minOnnxQdqOpset so
    ∧ (so = true → env.minOnnxQdqOpset ≤ o)
    ∧ (so = false → o = min env.defaultOnnxOpset env.maxOnnxOpset) := by
  rcases torch_opset_cases env q ds sd so bs ruc with hn | hs
  · rw [h] at hn
    exact absurd hn (by simp)
  · rw [h] at hs
    injection hs with ho
    refine ⟨ho, ?_, ?_⟩
    · intro hso
      rw [ho, hso]
      unfold torchExportOpset
      simp only [if_true]
      exact le_max_right _ _
    · intro hso
      rw [ho, hso]
      unfold torchExportOpset
      simp

/-- Witness for C8's amended theorem: with ONNX saving requested the used
opset is `max(min(11, 16), 13) = 13`. -/
theorem torch_opset_formula_witness :
    13 = torchExportOpset 11 16 13 true
    ∧ (true = true → 13 ≤ 13)
    ∧ (true = false → 13 = min 11 16) :=
  torch_opset_formula witnessEnv torchQ witnessDs "out" true 1 true 13 rfl

/-- C9: the calibration loader builder is a deterministic function of the
quantizer's seed and signature columns (the generator is freshly seeded
from `self.seed` on every call): two invocations on quantizers sharing
seed and signature columns — in particular two runs on a quantizer
constructed with the same seed, whatever else happened to its state —
produce identical batch sequences. -/
theorem calibration_loader_two_run_deterministic (perm : Nat → Nat → List Nat)
    (q1 q2 : Quantizer) (ds : HFDataset) (batch_size : Nat) (ruc : Bool)
    (hseed : q1.seed = q2.seed) (hsig : q1.signature_columns = q2.signature_columns) :
    (_get_calibration_dataloader perm q1 ds batch_size ruc).2
      = (_get_calibration_dataloader perm q2 ds batch_size ruc).2 := by
  simp only [_get_calibration_dataloader]
  rw [hseed, hsig]

/-- A freshly constructed quantizer, `input_names` unset. -/
def seedQ1 : Quantizer :=
  ⟨.ovBase, 0, Option.none, 42, Option.none, ["input_ids"]⟩

/-- A quantizer with the same seed and signature columns whose other fields
(model, task, `input_names`) have drifted. -/
def seedQ2 : Quantizer :=
  ⟨.torchModule, 5, some "text-classification", 42, some [], ["input_ids"]⟩

/-- Witness for C9 at two concrete same-seed quantizers. -/
theorem calibration_loader_two_run_deterministic_witness :
    seedQ1.seed = seedQ2.seed
    ∧ seedQ1.signature_columns = seedQ2.signature_columns
    ∧ (_get_calibration_dataloader (fun _ n => List.range n) seedQ1 witnessDs 2 true).2
        = (_get_calibration_dataloader (fun _ n => List.range n) seedQ2 witnessDs 2 true).2 :=
  ⟨rfl, rfl,
    calibration_loader_two_run_deterministic (fun _ n => List.range n) seedQ1 seedQ2
      witnessDs 2 true rfl rfl⟩

/-- `OVQuantizer.get_calibration_dataset` with no preprocessing function:
after loading, when `num_samples` is not `None` it is clamped to the split
size, the split is shuffled with `self.seed` and the first
`min(num_samples, len(split))` shuffled examples are selected.  `shuffle`
abstracts the dataset library's seeded permutation. -/
def get_calibration_dataset (shuffle : Nat → Nat → List Nat) (seed : Nat)
    (loaded : HFDataset) (num_samples : Option Nat) : HFDataset :=
  match num_samples with
  | Option.none => loaded
  | some n =>
    ⟨loaded.cols,
     (applyOrder loaded.rows (shuffle seed loaded.rows.length)).take
       (min n loaded.rows.length)⟩

lemma applyOrder_length (rows : List Row) (order : List Nat)
    (h : ∀ i ∈ order, i < rows.length) :
    (applyOrder rows order).length = order.length := by
  induction order with
  | nil => rfl
  | cons i is ih =>
    have hi : i < rows.length := h i (List.mem_cons_self i is)
    have hget : rows.get? i = some (rows.get ⟨i, hi⟩) := List.get?_eq_get hi
    unfold applyOrder
    rw [List.filterMap_cons, hget]
    simp only [List.length_cons]
    have hrest := ih (fun j hj => h j (List.mem_cons_of_mem i hj))
    unfold applyOrder at hrest
    rw [hrest]

/-- C10: for every loaded split and non-None `num_samples`, the calibration
dataset returned (without preprocessing) has exactly
`min(num_samples, len(split))` examples; asking for more samples than the
split holds returns the whole shuffled split rather than failing. -/
theorem get_calibration_dataset_size (shuffle : Nat → Nat → List Nat) (seed : Nat)
    (loaded : HFDataset) (n : Nat)
    (hlen : (shuffle seed loaded.rows.length).length = loaded.rows.length)
    (hbound : ∀ i ∈ shuffle seed loaded.rows.length, i < loaded.rows.length) :
    (get_calibration_dataset shuffle seed loaded (some n)).rows.length
      = min n loaded.rows.length := by
  unfold get_calibration_dataset
  simp only [List.length_take]
  rw [applyOrder_length loaded.rows _ hbound, hlen]
  omega

/-- Witness for C10: requesting 5 samples from a 3-example split returns
all 3 examples. -/
theorem get_calibration_dataset_size_witness :
    ((fun _ n => List.range n) 42 witnessDs.rows.length).length = witnessDs.rows.length
    ∧ (∀ i ∈ (fun _ n => List.range n) 42 witnessDs.rows.length, i < witnessDs.rows.length)
    ∧ (get_calibration_dataset (fun _ n => List.range n) 42 witnessDs (some 5)).rows.length
        = min 5 witnessDs.rows.length :=
  ⟨by decide, by decide,
    get_calibration_dataset_size (fun _ n => List.range n) 42 witnessDs 5
      (by decide) (by decide)⟩
